import Mathlib

/-!
Verification of the message lifecycle coordinator of signal-desktop
(src/ts/models/messages.ts) against its natural-language specification.

The relevant parts of the source are embedded shallowly: pure fragments of the
TypeScript become Lean functions over explicit records, truthiness checks on
strings/numbers/options are made explicit, and the side-effecting pipeline
steps of `handleDataMessage` / `saveAndNotify` are modelled as values of an
outcome type or as an emitted step list.  Helpers that the source imports from
modules outside src/ (ts/messages/MessageSendState, ts/reactions/util, the
message-subtype selectors) are modelled from the specification and marked as
such in their doc comments.
-/

namespace SignalDesktop

/-! ## Send states (ts/messages/MessageSendState, used by src/ts/models/messages.ts) -/

inductive SendStatus
  | Failed
  | Pending
  | Sent
  | Delivered
  | Read
  | Viewed
  deriving DecidableEq, Repr

structure SendState where
  status : SendStatus
  updatedAt : Nat
  deriving DecidableEq, Repr

inductive SendActionType
  | Sent
  | GotDeliveryReceipt
  | GotReadReceipt
  | GotViewedReceipt
  | Failed
  | ManuallyRetried
  deriving DecidableEq, Repr

structure SendAction where
  type : SendActionType
  updatedAt : Nat
  deriving DecidableEq, Repr

/-- Position of a status in the delivery order Pending → Sent → Delivered → Read →
Viewed, with Failed below all of them. -/
def sendStatusRank : SendStatus → Nat
  | .Failed => 0
  | .Pending => 1
  | .Sent => 2
  | .Delivered => 3
  | .Read => 4
  | .Viewed => 5

/-- Modelled from the spec: `isSent` is imported by src/ts/models/messages.ts from
ts/messages/MessageSendState, which is not under src/.  Per §4.1 the sent-class
statuses are those at or beyond Sent in the delivery order, so `isSent` holds exactly
for Sent, Delivered, Read and Viewed. -/
def isSent (s : SendStatus) : Bool :=
  sendStatusRank SendStatus.Sent ≤ sendStatusRank s

/-- Modelled from the spec: `sendStateReducer` is imported by src/ts/models/messages.ts
from ts/messages/MessageSendState, which is not under src/.  Per §4.1 the reducer is
pure and total; status only advances along Pending → Sent → Delivered → Read → Viewed,
a receipt for a later status implies the earlier ones, Failed is reached from Pending
(the comment on `markFailed` in src/ts/models/messages.ts confirms that successful
sends are never marked failed), and ManuallyRetried resets a Failed or Pending
recipient to Pending while leaving sent-class recipients untouched. -/
def sendStateReducer (state : SendState) (action : SendAction) : SendState :=
  match action.type with
  | .Sent =>
      if sendStatusRank state.status < sendStatusRank SendStatus.Sent then
        { status := SendStatus.Sent, updatedAt := action.updatedAt }
      else state
  | .GotDeliveryReceipt =>
      if sendStatusRank state.status < sendStatusRank SendStatus.Delivered then
        { status := SendStatus.Delivered, updatedAt := action.updatedAt }
      else state
  | .GotReadReceipt =>
      if sendStatusRank state.status < sendStatusRank SendStatus.Read then
        { status := SendStatus.Read, updatedAt := action.updatedAt }
      else state
  | .GotViewedReceipt =>
      if sendStatusRank state.status < sendStatusRank SendStatus.Viewed then
        { status := SendStatus.Viewed, updatedAt := action.updatedAt }
      else state
  | .Failed =>
      if state.status = SendStatus.Pending then
        { status := SendStatus.Failed, updatedAt := action.updatedAt }
      else state
  | .ManuallyRetried =>
      if state.status = SendStatus.Failed ∨ state.status = SendStatus.Pending then
        { status := SendStatus.Pending, updatedAt := action.updatedAt }
      else state

/-! ## retrySend (src/ts/models/messages.ts:1303-1395) -/

/-- The send-state update that `retrySend` performs for one entry of
`sendStateByConversationId` (src/ts/models/messages.ts:1336-1359): entries whose
status is already sent-class are skipped, entries whose recipient conversation is
unknown or no longer in the current recipient set (unless the recipient is the local
account) are skipped, and the remaining entries get the ManuallyRetried action. -/
def retrySendEntry (currentRecipients : List String) (isMe known : String → Bool)
    (now : Nat) (conversationId : String) (sendState : SendState) : SendState :=
  if isSent sendState.status then sendState
  else if !(known conversationId) then sendState
  else if !(currentRecipients.contains conversationId) && !(isMe conversationId) then
    sendState
  else sendStateReducer sendState { type := SendActionType.ManuallyRetried, updatedAt := now }

/-- The full `sendStateByConversationId` rewrite of `retrySend`
(src/ts/models/messages.ts:1331-1361): the object copy plus the per-entry loop amount
to a map of `retrySendEntry` over the entries. -/
def retrySendStates (currentRecipients : List String) (isMe known : String → Bool)
    (now : Nat) (old : List (String × SendState)) : List (String × SendState) :=
  old.map fun p => (p.1, retrySendEntry currentRecipients isMe known now p.1 p.2)

/-! ## Reactions (handleReaction, src/ts/models/messages.ts:3132-3438) -/

structure MessageReaction where
  emoji : Option String
  fromId : String
  timestamp : Nat
  deriving DecidableEq, Repr

inductive ReactionSource
  | FromThisDevice
  | FromSync
  | FromSomeoneElse
  deriving DecidableEq, Repr

structure ReactionEvent where
  remove : Bool
  emoji : Option String
  fromId : String
  timestamp : Nat
  source : ReactionSource
  deriving DecidableEq, Repr

/-- The `newReaction` record built at the top of `handleReaction`
(src/ts/models/messages.ts:3176-3185): a remove event records no emoji. -/
def newReactionOfEvent (ev : ReactionEvent) : MessageReaction :=
  { emoji := if ev.remove then none else ev.emoji
    fromId := ev.fromId
    timestamp := ev.timestamp }

/-- Modelled from the spec: `isNewReactionReplacingPrevious` is imported by
src/ts/models/messages.ts from ts/reactions/util, which is not under src/.  §4.3's
replacement rule keeps at most one active reaction per `fromId` per target, so an
existing record and a new record replace one another exactly when they carry the same
`fromId`. -/
def isNewReactionReplacingPrevious (re other : MessageReaction) : Bool :=
  re.fromId == other.fromId

/-- Modelled from the spec: `addOutgoingReaction` is imported by
src/ts/models/messages.ts from ts/reactions/util, which is not under src/.  §4.3: a new
non-remove event from the same `fromId` replaces the prior entry, and a remove event
deletes the matching entry. -/
def addOutgoingReaction (old : List MessageReaction) (n : MessageReaction) :
    List MessageReaction :=
  let filtered := old.filter fun re => !(isNewReactionReplacingPrevious re n)
  match n.emoji with
  | some _ => filtered ++ [n]
  | none => filtered

/-- lodash `maxBy` over the `timestamp` field as used at
src/ts/models/messages.ts:3341: the running maximum is replaced only by a strictly
larger timestamp, so the first maximal element wins. -/
def maxByTimestamp (acc : MessageReaction) : List MessageReaction → MessageReaction
  | [] => acc
  | r :: rest => maxByTimestamp (if acc.timestamp < r.timestamp then r else acc) rest

/-- The reaction-set update of `handleReaction` for non-story messages
(src/ts/models/messages.ts:3277-3365): events from this device go through
`addOutgoingReaction`; a remove from sync keeps matching entries with strictly newer
timestamps, a remove from someone else deletes all matching entries; a non-remove
replaces the matching entry, where a sync-sourced event competes by timestamp with our
own existing records for the same `fromId`. -/
def applyReaction (old : List MessageReaction) (ev : ReactionEvent) :
    List MessageReaction :=
  let n := newReactionOfEvent ev
  if ev.source = ReactionSource.FromThisDevice then
    addOutgoingReaction old n
  else if ev.remove then
    if ev.source = ReactionSource.FromSync then
      old.filter fun re =>
        !(isNewReactionReplacingPrevious re n) || decide (ev.timestamp < re.timestamp)
    else
      old.filter fun re => !(isNewReactionReplacingPrevious re n)
  else
    let reactionToAdd :=
      if ev.source = ReactionSource.FromSync then
        maxByTimestamp n (old.filter fun re => re.fromId == ev.fromId)
      else n
    (old.filter fun re => !(isNewReactionReplacingPrevious re n)) ++ [reactionToAdd]

/-! ## Read/view sync reconciliation (modifyTargetMessage,
src/ts/models/messages.ts:2884-3130) -/

inductive ReadStatus
  | Unread
  | Read
  | Viewed
  deriving DecidableEq, Repr

inductive SeenStatus
  | Unseen
  | Seen
  deriving DecidableEq, Repr

/-- The attributes of an incoming target message that the read/view sync part of
`modifyTargetMessage` reads and writes, together with the model's transient
`pendingMarkRead` field. -/
structure IncomingTarget where
  readStatus : ReadStatus
  seenStatus : SeenStatus
  expireTimer : Option Nat
  expirationStartTimestamp : Option Nat
  pendingMarkRead : Option Nat
  deriving DecidableEq, Repr

/-- Truthiness of `message.get('expireTimer')`: absent and zero are both falsy. -/
def hasExpireTimer (m : IncomingTarget) : Bool :=
  match m.expireTimer with
  | some t => t != 0
  | none => false

/-- `Math.min(Date.now(), ...readAts, ...viewedAts)`
(src/ts/models/messages.ts:2970-2974). -/
def markReadAtOf (now : Nat) (readAts viewedAts : List Nat) : Nat :=
  (readAts ++ viewedAts).foldl Nat.min now

/-- Observable steps of the persistence / reconciliation pipeline. -/
inductive LifecycleStep
  | batchSave
  | triggerNewMessage
  | onReadMessage (markReadAt : Nat)
  | confirmReceipt
  deriving DecidableEq, Repr

structure ModifyResult where
  target : IncomingTarget
  steps : List LifecycleStep
  markReadAtUsed : Option Nat
  deriving DecidableEq, Repr

/-- The sync-folding part of `modifyTargetMessage` for an incoming message
(src/ts/models/messages.ts:2969-3007): when matching read or view syncs exist, fold
them into readStatus/seenStatus/expirationStartTimestamp and accumulate the minimum
`pendingMarkRead`. -/
def applyReadViewSyncs (now : Nat) (readAts viewedAts : List Nat)
    (m0 : IncomingTarget) : IncomingTarget :=
  let hasSyncs : Bool := !readAts.isEmpty || !viewedAts.isEmpty
  let markReadAt := markReadAtOf now readAts viewedAts
  if hasSyncs then
    let newExpirationStart := some (Nat.min (m0.expirationStartTimestamp.getD now) markReadAt)
    let m :=
      if hasExpireTimer m0 then
        { m0 with expirationStartTimestamp := newExpirationStart }
      else m0
    { m with
      readStatus := if !viewedAts.isEmpty then ReadStatus.Viewed else ReadStatus.Read
      seenStatus := SeenStatus.Seen
      pendingMarkRead := some (Nat.min (m.pendingMarkRead.getD now) markReadAt) }
  else m0

/-- The read/view sync reconciliation of `modifyTargetMessage` for an incoming message
(src/ts/models/messages.ts:2958-3028): the syncs are folded in by
`applyReadViewSyncs`, and on the second pass (isFirstRun = false) a truthy
`pendingMarkRead` is consumed and the mark-older-messages-read cascade
(`onReadMessage`) is emitted. -/
def modifyTargetMessageIncoming (now : Nat) (readAts viewedAts : List Nat)
    (isFirstRun : Bool) (m0 : IncomingTarget) : ModifyResult :=
  let hasSyncs : Bool := !readAts.isEmpty || !viewedAts.isEmpty
  let m1 := applyReadViewSyncs now readAts viewedAts m0
  let used : Option Nat := if hasSyncs then some (markReadAtOf now readAts viewedAts) else none
  match isFirstRun, m1.pendingMarkRead with
  | false, some t =>
      if t != 0 then
        { target := { m1 with pendingMarkRead := none }
          steps := [LifecycleStep.onReadMessage t]
          markReadAtUsed := used }
      else { target := m1, steps := [], markReadAtUsed := used }
  | _, _ => { target := m1, steps := [], markReadAtUsed := used }

/-- The step sequence of `saveAndNotify` (src/ts/models/messages.ts:2849-2879): the
persistence batch (`saveNewMessageBatcher.add`) is awaited first, then the second
reconciliation pass runs, then the inbound payload is confirmed. -/
def saveAndNotifySteps (now : Nat) (readAts viewedAts : List Nat)
    (m : IncomingTarget) : List LifecycleStep :=
  LifecycleStep.batchSave ::
    LifecycleStep.triggerNewMessage ::
      ((modifyTargetMessageIncoming now readAts viewedAts false m).steps ++
        [LifecycleStep.confirmReceipt])

/-- The reconciliation tail of `handleDataMessage`
(src/ts/models/messages.ts:2836-2840): the first pass runs with isFirstRun = true,
then `saveAndNotify` takes over. -/
def handleDataMessageReconciliationSteps (now : Nat) (readAts viewedAts : List Nat)
    (m : IncomingTarget) : List LifecycleStep :=
  let firstPass := modifyTargetMessageIncoming now readAts viewedAts true m
  firstPass.steps ++ saveAndNotifySteps now readAts viewedAts firstPass.target

/-! ## Message attributes, emptiness, and delete-for-everyone
(src/ts/models/messages.ts:1116-1226 and 3440-3473) -/

/-- The message attributes read by `isEmpty`, `eraseContents` and
`handleDeleteForEveryone`. -/
structure MsgAttrs where
  msgType : String
  body : String
  bodyRanges : Option String
  attachments : List String
  contact : List String
  sticker : Option String
  payment : Option String
  giftBadge : Option String
  group_update : Option String
  groupV2Change : Option String
  flags : Nat
  isViewOnce : Bool
  errors : List String
  editHistory : Option String
  supportedVersionAtReceive : Option Nat
  requiredProtocolVersion : Option Nat
  isErased : Bool
  preview : List String
  quote : Option String
  reactions : List MessageReaction
  deletedForEveryone : Bool
  deriving DecidableEq, Repr

/-- Modelled from the spec: `isCallHistory` comes from the message-subtype selectors
(ts/state/selectors/message), which are not under src/; it recognizes the call-history
notification subtype from the message's type tag. -/
def isCallHistory (m : MsgAttrs) : Bool := m.msgType == "call-history"

/-- Modelled from the spec: subtype selector not under src/; recognizes the
chat-session-refreshed notification from the type tag. -/
def isChatSessionRefreshed (m : MsgAttrs) : Bool := m.msgType == "chat-session-refreshed"

/-- Modelled from the spec: subtype selector not under src/; recognizes the
delivery-issue notification from the type tag. -/
def isDeliveryIssue (m : MsgAttrs) : Bool := m.msgType == "delivery-issue"

/-- Modelled from the spec: subtype selector not under src/; a gift-badge message
carries a `giftBadge` field. -/
def isGiftBadge (m : MsgAttrs) : Bool := m.giftBadge.isSome

/-- Modelled from the spec: subtype selector not under src/; a group-v1 update carries
a `group_update` field. -/
def isGroupUpdate (m : MsgAttrs) : Bool := m.group_update.isSome

/-- Modelled from the spec: subtype selector not under src/; a group-v2 change carries
a `groupV2Change` field. -/
def isGroupV2Change (m : MsgAttrs) : Bool := m.groupV2Change.isSome

/-- Modelled from the spec: subtype selector not under src/; the end-session subtype is
bit 0 of the protocol flags. -/
def isEndSession (m : MsgAttrs) : Bool := m.flags.testBit 0

/-- Modelled from the spec: subtype selector not under src/; a message "carrying only
an expiration-timer-update flag" (§8) is recognized by bit 1 of the protocol flags. -/
def isExpirationTimerUpdate (m : MsgAttrs) : Bool := m.flags.testBit 1

/-- Modelled from the spec: subtype selector not under src/; recognizes the
verified-change notification from the type tag. -/
def isVerifiedChange (m : MsgAttrs) : Bool := m.msgType == "verified-change"

/-- Modelled from the spec: subtype selector not under src/; a message is unsupported
when the protocol version required by the sender exceeds the version supported at
receive time. -/
def isUnsupportedMessage (m : MsgAttrs) : Bool :=
  match m.supportedVersionAtReceive, m.requiredProtocolVersion with
  | some s, some r => s < r
  | _, _ => false

/-- Modelled from the spec: subtype selector not under src/; a tap-to-view (view-once)
placeholder is recognized by the `isViewOnce` field. -/
def isTapToView (m : MsgAttrs) : Bool := m.isViewOnce

/-- Modelled from the spec: `hasErrors` is not under src/; the message has errors when
its error list is nonempty. -/
def hasErrors (m : MsgAttrs) : Bool := !m.errors.isEmpty

/-- Modelled from the spec: subtype selector not under src/; recognizes the key-change
notification from the type tag. -/
def isKeyChange (m : MsgAttrs) : Bool := m.msgType == "keychange"

/-- Modelled from the spec: subtype selector not under src/; recognizes the
profile-change notification from the type tag. -/
def isProfileChange (m : MsgAttrs) : Bool := m.msgType == "profile-change"

/-- Modelled from the spec: subtype selector not under src/; recognizes the universal
expire-timer notification from the type tag. -/
def isUniversalTimerNotification (m : MsgAttrs) : Bool :=
  m.msgType == "universal-timer-notification"

/-- Modelled from the spec: subtype selector not under src/; recognizes the
conversation-merge notification from the type tag. -/
def isConversationMerge (m : MsgAttrs) : Bool := m.msgType == "conversation-merge"

/-- Modelled from the spec: `messageHasPaymentEvent` is not under src/; a payment
message carries a `payment` field. -/
def messageHasPaymentEvent (m : MsgAttrs) : Bool := m.payment.isSome

/-- `isEmpty` from src/ts/models/messages.ts:1159-1226: nothing to display means no
core content kind (body, attachment, embedded contact, sticker, payment), no rendered
sync subtype, no placeholder subtype, no errors, and no locally-generated
notification subtype. -/
def isEmpty (m : MsgAttrs) : Bool :=
  let hasBody := m.body != ""
  let hasAttachment := !m.attachments.isEmpty
  let hasEmbeddedContact := !m.contact.isEmpty
  let isSticker := m.sticker.isSome
  let hasSomethingToDisplay :=
    hasBody || hasAttachment || hasEmbeddedContact || isSticker ||
      messageHasPaymentEvent m ||
      isCallHistory m || isChatSessionRefreshed m || isDeliveryIssue m ||
      isGiftBadge m || isGroupUpdate m || isGroupV2Change m || isEndSession m ||
      isExpirationTimerUpdate m || isVerifiedChange m ||
      isUnsupportedMessage m || isTapToView m ||
      hasErrors m ||
      isKeyChange m || isProfileChange m || isUniversalTimerNotification m ||
      isConversationMerge m
  !hasSomethingToDisplay

/-- The emptiness gate of `handleDataMessage` (src/ts/models/messages.ts:2605-2622):
only supported messages reach the gate, and a supported message found empty after all
fields are populated is confirmed and dropped. -/
def postPopulationDrop (m : MsgAttrs) : Bool :=
  !(isUnsupportedMessage m) && isEmpty m

/-- `eraseContents` (src/ts/models/messages.ts:1116-1157) with the additional
properties passed by `handleDeleteForEveryone` (src/ts/models/messages.ts:3463-3466):
attachments, body, bodyRanges, contact, editHistory, preview, quote and sticker are
cleared, `isErased` is set, and the delete additionally sets `deletedForEveryone` and
clears the reactions. -/
def eraseContentsForDelete (m : MsgAttrs) : MsgAttrs :=
  { m with
    attachments := []
    body := ""
    bodyRanges := none
    contact := []
    editHistory := none
    isErased := true
    preview := []
    quote := none
    sticker := none
    deletedForEveryone := true
    reactions := [] }

/-- `handleDeleteForEveryone` (src/ts/models/messages.ts:3440-3473): a delete on an
already-deleted message returns immediately; otherwise the message contents are erased
with `deletedForEveryone` set and reactions cleared. -/
def handleDeleteForEveryone (m : MsgAttrs) : MsgAttrs :=
  if m.deletedForEveryone then m else eraseContentsForDelete m

/-- The invariant claimed for deleted-for-everyone messages: deleted, erased, and all
displayable content and reactions cleared. -/
def deletedInvariant (m : MsgAttrs) : Prop :=
  m.deletedForEveryone = true ∧ m.isErased = true ∧ m.body = "" ∧
    m.attachments = [] ∧ m.contact = [] ∧ m.preview = [] ∧ m.reactions = [] ∧
    m.quote = none ∧ m.sticker = none

/-! ## Duplicate / blocked / membership gating (handleDataMessage,
src/ts/models/messages.ts:2132-2421) -/

inductive MsgType
  | incoming
  | outgoing
  | story
  deriving DecidableEq, Repr

/-- The parts of an already-known message that the sync-transcript merge touches. -/
structure ExistingMessage where
  storyDistributionListId : Option String
  sendStateByConversationId : List (String × SendState)
  unidentifiedDeliveries : List String
  deriving DecidableEq, Repr

/-- One entry of `data.unidentifiedStatus` after contact resolution
(src/ts/models/messages.ts:2208-2228): `identifier` is `destinationUuid ||
destination`, and `destinationConversation` is the conversation id that
`maybeMergeContacts` resolved (none when resolution failed). -/
structure UnidentifiedStatusEntry where
  identifier : Option String
  destinationConversation : Option String
  unidentified : Bool
  deriving DecidableEq, Repr

def lookupState : List (String × SendState) → String → Option SendState
  | [], _ => none
  | p :: rest, k => if p.1 == k then some p.2 else lookupState rest k

def setState : List (String × SendState) → String → SendState → List (String × SendState)
  | [], k, v => [(k, v)]
  | p :: rest, k, v => if p.1 == k then (k, v) :: rest else p :: setState rest k v

def insertUnique (l : List String) (s : String) : List String :=
  if l.contains s then l else l ++ [s]

/-- The recipient-update merge of `handleDataMessage` for a sync transcript of an
already-known outgoing message (src/ts/models/messages.ts:2196-2262): each resolved
destination's send state is advanced with a Sent action (or created as Sent), and
destinations flagged unidentified are added to the `unidentifiedDeliveries` set. -/
def mergeRecipientUpdate (existing : ExistingMessage)
    (entries : List UnidentifiedStatusEntry) (updatedAt : Nat) : ExistingMessage :=
  entries.foldl
    (fun acc e =>
      match e.identifier, e.destinationConversation with
      | some ident, some dest =>
          let newState :=
            match lookupState acc.sendStateByConversationId dest with
            | some prev =>
                sendStateReducer prev { type := SendActionType.Sent, updatedAt := updatedAt }
            | none => { status := SendStatus.Sent, updatedAt := updatedAt }
          { acc with
            sendStateByConversationId := setState acc.sendStateByConversationId dest newState
            unidentifiedDeliveries :=
              if e.unidentified then insertUnique acc.unidentifiedDeliveries ident
              else acc.unidentifiedDeliveries }
      | _, _ => acc)
    existing

/-- The inputs of the early gating of `handleDataMessage`.  External lookups
(duplicate search by sender identity, blocked-list membership, group membership and
admin checks) are passed in as already-resolved values. -/
structure GateInput where
  msgType : MsgType
  existingMessage : Option ExistingMessage
  hasSyncData : Bool
  isRecipientUpdate : Bool
  thisStoryDistributionListId : Option String
  unidentifiedStatus : List UnidentifiedStatusEntry
  updatedAt : Nat
  sourceBlocked : Bool
  sourceUuidBlocked : Bool
  hasGroupV2Prop : Bool
  isDirectConversation : Bool
  conversationLeft : Bool
  weAreMember : Bool
  sourceUuidPresent : Bool
  senderIsMember : Bool
  membersFieldPresent : Bool
  announcementsOnly : Bool
  senderIsAdmin : Bool
  deriving DecidableEq, Repr

inductive GateOutcome
  | droppedDuplicate
  | mergedSyncUpdate (updated : ExistingMessage)
  | droppedUpdateMissingTarget
  | droppedDuplicateTranscript
  | droppedBlocked
  | droppedNotInGroupV2
  | droppedNotInGroupV1
  | droppedAnnouncementNotAdmin
  | proceed
  deriving DecidableEq, Repr

/-- The early gating of `handleDataMessage` (src/ts/models/messages.ts:2162-2421), in
source order: duplicate check against an already-known message with the same sender
identity, sync-transcript handling for outgoing messages, the blocked-sender drop, the
group-v2 and group-v1 membership gates, and the announcement-only gate.  The group-v2
state changes at src/ts/models/messages.ts:2287-2350 are delegated to the external
group service and are not modelled; they produce no gate outcome. -/
def gateDecision (g : GateInput) : GateOutcome :=
  let isUpdate := g.hasSyncData && g.isRecipientUpdate
  let isDuplicateMessage :=
    match g.existingMessage with
    | none => false
    | some e =>
        g.msgType == MsgType.incoming ||
          (g.msgType == MsgType.story &&
            e.storyDistributionListId == g.thisStoryDistributionListId)
  if isDuplicateMessage then GateOutcome.droppedDuplicate
  else
    let outgoingOutcome : Option GateOutcome :=
      if g.msgType == MsgType.outgoing then
        match g.existingMessage, isUpdate with
        | some e, true =>
            some (GateOutcome.mergedSyncUpdate
              (mergeRecipientUpdate e g.unidentifiedStatus g.updatedAt))
        | none, true => some GateOutcome.droppedUpdateMissingTarget
        | some _, false => some GateOutcome.droppedDuplicateTranscript
        | none, false => none
      else none
    match outgoingOutcome with
    | some o => o
    | none =>
        let isBlocked := g.sourceBlocked || g.sourceUuidBlocked
        if isBlocked then GateOutcome.droppedBlocked
        else
          let areWeMember := !g.conversationLeft && g.weAreMember
          if g.msgType == MsgType.incoming && !g.isDirectConversation &&
              g.hasGroupV2Prop &&
              (!areWeMember || (g.sourceUuidPresent && !g.senderIsMember)) then
            GateOutcome.droppedNotInGroupV2
          else if g.msgType == MsgType.incoming && !g.isDirectConversation &&
              !g.hasGroupV2Prop && g.membersFieldPresent && !areWeMember then
            GateOutcome.droppedNotInGroupV1
          else if g.announcementsOnly && !g.senderIsAdmin then
            GateOutcome.droppedAnnouncementNotAdmin
          else GateOutcome.proceed

/-- Whether a gate outcome lets `handleDataMessage` continue to build and store a
fresh message; every other outcome terminates the pipeline without one. -/
def storesNewMessage : GateOutcome → Bool
  | .proceed => true
  | _ => false

/-- Whether a gate outcome acknowledges the inbound payload (`confirm()`): every early
termination of `handleDataMessage` up to the announcement gate does. -/
def callsConfirm : GateOutcome → Bool
  | .proceed => false
  | _ => true

/-! # Theorems -/

/-! ## Helper lemmas -/

theorem snd_eq_of_mem_zip_map {α β : Type} (f : α → β) (l : List α) (p : α × β)
    (h : p ∈ l.zip (l.map f)) : p.2 = f p.1 := by
  induction l with
  | nil => simp at h
  | cons a t ih =>
      simp only [List.map_cons, List.zip_cons_cons, List.mem_cons] at h
      cases h with
      | inl h => subst h; rfl
      | inr h => exact ih h

theorem not_isSent_iff (s : SendStatus) :
    isSent s = false ↔ (s = SendStatus.Failed ∨ s = SendStatus.Pending) := by
  cases s <;> simp [isSent, sendStatusRank]

theorem sendStateReducer_manualRetry_pending (st : SendState) (now : Nat)
    (h : isSent st.status = false) :
    (sendStateReducer st { type := SendActionType.ManuallyRetried, updatedAt := now }).status
      = SendStatus.Pending := by
  rcases (not_isSent_iff st.status).mp h with h' | h' <;>
    simp [sendStateReducer, h']

theorem retrySendEntry_eq (c : List String) (isMe known : String → Bool) (now : Nat)
    (cid : String) (st : SendState) :
    retrySendEntry c isMe known now cid st =
      if isSent st.status = false ∧ known cid = true ∧
          (c.contains cid = true ∨ isMe cid = true) then
        sendStateReducer st { type := SendActionType.ManuallyRetried, updatedAt := now }
      else st := by
  unfold retrySendEntry
  cases h1 : isSent st.status <;> cases h2 : known cid <;>
    cases h3 : c.contains cid <;> cases h4 : isMe cid <;> simp [h1, h2, h3, h4]

theorem filter_idem {α : Type} (p : α → Bool) (l : List α) :
    (l.filter p).filter p = l.filter p := by
  apply List.filter_eq_self.mpr
  intro a ha
  exact List.of_mem_filter ha

theorem maxByTimestamp_fromId (x : String) (l : List MessageReaction) :
    ∀ acc : MessageReaction, acc.fromId = x → (∀ r ∈ l, r.fromId = x) →
      (maxByTimestamp acc l).fromId = x := by
  induction l with
  | nil => intro acc hacc _; simpa [maxByTimestamp] using hacc
  | cons r rest ih =>
      intro acc hacc hall
      simp only [maxByTimestamp]
      apply ih
      · by_cases h : acc.timestamp < r.timestamp
        · simp only [h, if_true]
          exact hall r (by simp)
        · simp only [h, if_false]
          exact hacc
      · intro q hq
        exact hall q (by simp [hq])

theorem foldl_min_le_init (l : List Nat) : ∀ a : Nat, l.foldl Nat.min a ≤ a := by
  induction l with
  | nil => intro a; simp
  | cons x t ih =>
      intro a
      exact le_trans (ih (Nat.min a x)) (Nat.min_le_left a x)

theorem foldl_min_le_mem (l : List Nat) :
    ∀ (a t : Nat), t ∈ l → l.foldl Nat.min a ≤ t := by
  induction l with
  | nil => intro a t ht; simp at ht
  | cons x rest ih =>
      intro a t ht
      rcases List.mem_cons.mp ht with h | h
      · subst h
        exact le_trans (foldl_min_le_init rest (Nat.min a t)) (Nat.min_le_right a t)
      · exact ih (Nat.min a x) t h

theorem foldl_min_eq_init_or_mem (l : List Nat) :
    ∀ a : Nat, l.foldl Nat.min a = a ∨ l.foldl Nat.min a ∈ l := by
  induction l with
  | nil => intro a; left; rfl
  | cons x rest ih =>
      intro a
      rcases ih (Nat.min a x) with h | h
      · rcases Nat.le_total a x with hax | hxa
        · have hm : Nat.min a x = a := min_eq_left hax
          rw [hm] at h
          left
          simp only [List.foldl_cons, hm]
          exact h
        · have hm : Nat.min a x = x := min_eq_right hxa
          rw [hm] at h
          right
          simp only [List.foldl_cons, List.mem_cons, hm]
          left
          exact h
      · right
        simp only [List.foldl_cons, List.mem_cons]
        right
        exact h

/-! ## Claim C6 -/

/-- Claim C6: `retrySend` leaves every entry whose status is already sent-class
(Sent/Delivered/Read/Viewed) exactly unchanged; any entry it changes had a non
sent-class status (Pending or Failed), a known recipient that is still in the current
recipient set or is the local account, and was given the ManuallyRetried action, which
resets it to Pending. -/
theorem retrySend_manuallyRetried_only_unsent
    (currentRecipients : List String) (isMe known : String → Bool) (now : Nat)
    (old : List (String × SendState)) :
    ∀ p ∈ old.zip (retrySendStates currentRecipients isMe known now old),
      p.2.1 = p.1.1 ∧
      (isSent p.1.2.status = true → p.2.2 = p.1.2) ∧
      (p.2.2 ≠ p.1.2 →
        isSent p.1.2.status = false ∧ known p.1.1 = true ∧
          (currentRecipients.contains p.1.1 = true ∨ isMe p.1.1 = true) ∧
          p.2.2.status = SendStatus.Pending) ∧
      (isSent p.1.2.status = false → known p.1.1 = true →
        (currentRecipients.contains p.1.1 = true ∨ isMe p.1.1 = true) →
        p.2.2 = sendStateReducer p.1.2
          { type := SendActionType.ManuallyRetried, updatedAt := now }) := by
  intro p hp
  have hsnd : p.2 =
      (p.1.1, retrySendEntry currentRecipients isMe known now p.1.1 p.1.2) :=
    snd_eq_of_mem_zip_map _ old p hp
  have hkey : p.2.1 = p.1.1 := by rw [hsnd]
  have hval : p.2.2 = retrySendEntry currentRecipients isMe known now p.1.1 p.1.2 := by
    rw [hsnd]
  refine ⟨hkey, ?_, ?_, ?_⟩
  · intro h
    rw [hval, retrySendEntry_eq, if_neg]
    rintro ⟨h1, -⟩
    rw [h] at h1
    exact Bool.noConfusion h1
  · intro hne
    rw [hval, retrySendEntry_eq] at hne ⊢
    by_cases hc : isSent p.1.2.status = false ∧ known p.1.1 = true ∧
        (currentRecipients.contains p.1.1 = true ∨ isMe p.1.1 = true)
    · obtain ⟨h1, h2, h3⟩ := hc
      rw [if_pos ⟨h1, h2, h3⟩]
      exact ⟨h1, h2, h3, sendStateReducer_manualRetry_pending p.1.2 now h1⟩
    · rw [if_neg hc] at hne
      exact absurd rfl hne
  · intro h1 h2 h3
    rw [hval, retrySendEntry_eq, if_pos ⟨h1, h2, h3⟩]

/-- Witness for claim C6 at a concrete input: a Failed entry for a recipient still in
the conversation is reset by the ManuallyRetried action. -/
theorem retrySend_manuallyRetried_only_unsent_witness :
    ((("r1", ({ status := SendStatus.Failed, updatedAt := 1 } : SendState)),
        ("r1", ({ status := SendStatus.Pending, updatedAt := 9 } : SendState))) ∈
      [("r1", ({ status := SendStatus.Failed, updatedAt := 1 } : SendState))].zip
        (retrySendStates ["r1"] (fun _ => false) (fun _ => true) 9
          [("r1", ({ status := SendStatus.Failed, updatedAt := 1 } : SendState))])) ∧
    ({ status := SendStatus.Pending, updatedAt := 9 } : SendState) =
      sendStateReducer ({ status := SendStatus.Failed, updatedAt := 1 } : SendState)
        { type := SendActionType.ManuallyRetried, updatedAt := 9 } := by
  refine ⟨by decide, ?_⟩
  exact (retrySend_manuallyRetried_only_unsent ["r1"] (fun _ => false) (fun _ => true) 9
      [("r1", { status := SendStatus.Failed, updatedAt := 1 })]
      (("r1", { status := SendStatus.Failed, updatedAt := 1 }),
        ("r1", { status := SendStatus.Pending, updatedAt := 9 }))
      (by decide)).2.2.2 (by decide) (by decide) (by decide)

/-! ## Claim C2 -/

/-- Claim C2: for a remove reaction event in `handleReaction`, a Sync-sourced remove
retains any existing entry of the same author whose timestamp is strictly newer than
the remove event's, a non-Sync remove deletes every matching (same-author) entry
regardless of timestamps, and entries of other authors are always retained. -/
theorem handleReaction_remove_syncLWW (old : List MessageReaction) (ev : ReactionEvent)
    (hrm : ev.remove = true) :
    (ev.source = ReactionSource.FromSync →
      ∀ re ∈ old, re.fromId = ev.fromId → ev.timestamp < re.timestamp →
        re ∈ applyReaction old ev) ∧
    (ev.source ≠ ReactionSource.FromSync →
      ∀ re ∈ applyReaction old ev, re.fromId ≠ ev.fromId) ∧
    (∀ re ∈ old, re.fromId ≠ ev.fromId → re ∈ applyReaction old ev) := by
  refine ⟨?_, ?_, ?_⟩
  · intro hs re hre hfrom hts
    simp [applyReaction, hs, hrm, newReactionOfEvent, isNewReactionReplacingPrevious,
      List.mem_filter, hre, hts]
  · intro hs re hre
    cases hev : ev.source with
    | FromThisDevice =>
        simp [applyReaction, hev, hrm, addOutgoingReaction, newReactionOfEvent,
          isNewReactionReplacingPrevious] at hre
        exact hre.2
    | FromSync => exact absurd hev hs
    | FromSomeoneElse =>
        simp [applyReaction, hev, hrm, newReactionOfEvent,
          isNewReactionReplacingPrevious] at hre
        exact hre.2
  · intro re hre hfrom
    cases hev : ev.source with
    | FromThisDevice =>
        simp [applyReaction, hev, addOutgoingReaction, newReactionOfEvent, hrm,
          List.mem_filter, isNewReactionReplacingPrevious, hre, hfrom]
    | FromSync =>
        simp [applyReaction, hev, hrm, List.mem_filter,
          isNewReactionReplacingPrevious, newReactionOfEvent, hre, hfrom]
    | FromSomeoneElse =>
        simp [applyReaction, hev, hrm, List.mem_filter,
          isNewReactionReplacingPrevious, newReactionOfEvent, hre, hfrom]

/-- Witness for claim C2 at a concrete input: a Sync-sourced remove with timestamp 5
does not erase the same author's reaction recorded at timestamp 7. -/
theorem handleReaction_remove_syncLWW_witness :
    ({ emoji := some "x", fromId := "alice", timestamp := 7 } : MessageReaction) ∈
      applyReaction [{ emoji := some "x", fromId := "alice", timestamp := 7 }]
        { remove := true, emoji := none, fromId := "alice", timestamp := 5,
          source := ReactionSource.FromSync } := by
  exact (handleReaction_remove_syncLWW
      [{ emoji := some "x", fromId := "alice", timestamp := 7 }]
      { remove := true, emoji := none, fromId := "alice", timestamp := 5,
        source := ReactionSource.FromSync } (by decide)).1 (by decide)
    { emoji := some "x", fromId := "alice", timestamp := 7 }
    (by decide) (by decide) (by decide)

/-! ## Claim C8 -/

/-- Claim C8: applying the same non-remove reaction event twice to a non-story message
is idempotent: the second application leaves the reaction list at the same size. -/
theorem handleReaction_nonRemove_idempotent (old : List MessageReaction)
    (ev : ReactionEvent) (h1 : ev.remove = false) (h2 : ev.emoji.isSome = true) :
    (applyReaction (applyReaction old ev) ev).length = (applyReaction old ev).length := by
  obtain ⟨e, he⟩ := Option.isSome_iff_exists.mp h2
  cases hev : ev.source with
  | FromThisDevice =>
      simp [applyReaction, addOutgoingReaction, hev, h1, newReactionOfEvent, he,
        List.filter_append, filter_idem, isNewReactionReplacingPrevious]
  | FromSomeoneElse =>
      simp [applyReaction, hev, h1, List.filter_append, filter_idem,
        newReactionOfEvent, isNewReactionReplacingPrevious]
  | FromSync =>
      have hfrom : ∀ (l : List MessageReaction) (acc : MessageReaction),
          acc.fromId = ev.fromId →
          (maxByTimestamp acc (l.filter fun re => re.fromId == ev.fromId)).fromId
            = ev.fromId := by
        intro l acc hacc
        apply maxByTimestamp_fromId ev.fromId _ acc hacc
        intro r hr
        have := List.of_mem_filter hr
        simpa using this
      simp [applyReaction, hev, h1, List.filter_append, filter_idem,
        newReactionOfEvent, isNewReactionReplacingPrevious, hfrom]

/-- Witness for claim C8 at a concrete input: re-applying Alice's thumbs-up from
another device keeps exactly one reaction. -/
theorem handleReaction_nonRemove_idempotent_witness :
    (applyReaction
        (applyReaction [{ emoji := some "y", fromId := "alice", timestamp := 3 }]
          { remove := false, emoji := some "z", fromId := "alice", timestamp := 4,
            source := ReactionSource.FromSomeoneElse })
        { remove := false, emoji := some "z", fromId := "alice", timestamp := 4,
          source := ReactionSource.FromSomeoneElse }).length =
      (applyReaction [{ emoji := some "y", fromId := "alice", timestamp := 3 }]
        { remove := false, emoji := some "z", fromId := "alice", timestamp := 4,
          source := ReactionSource.FromSomeoneElse }).length :=
  handleReaction_nonRemove_idempotent
    [{ emoji := some "y", fromId := "alice", timestamp := 3 }]
    { remove := false, emoji := some "z", fromId := "alice", timestamp := 4,
      source := ReactionSource.FromSomeoneElse } (by decide) (by decide)

/-! ## Reconciliation helper lemmas -/

theorem isEmpty_false_of_ne_nil {α : Type} {l : List α} (h : l ≠ []) :
    l.isEmpty = false := by
  cases l
  · exact absurd rfl h
  · rfl

theorem modifyTargetMessageIncoming_target_fields (now : Nat)
    (readAts viewedAts : List Nat) (isFirstRun : Bool) (m0 : IncomingTarget) :
    (modifyTargetMessageIncoming now readAts viewedAts isFirstRun m0).target.readStatus
        = (applyReadViewSyncs now readAts viewedAts m0).readStatus ∧
      (modifyTargetMessageIncoming now readAts viewedAts isFirstRun m0).target.seenStatus
        = (applyReadViewSyncs now readAts viewedAts m0).seenStatus ∧
      (modifyTargetMessageIncoming now readAts viewedAts
          isFirstRun m0).target.expirationStartTimestamp
        = (applyReadViewSyncs now readAts viewedAts m0).expirationStartTimestamp := by
  unfold modifyTargetMessageIncoming
  cases isFirstRun <;>
    cases hp : (applyReadViewSyncs now readAts viewedAts m0).pendingMarkRead <;>
      simp [hp] <;> (try split) <;> simp

theorem modifyTargetMessageIncoming_markReadAtUsed (now : Nat)
    (readAts viewedAts : List Nat) (isFirstRun : Bool) (m0 : IncomingTarget) :
    (modifyTargetMessageIncoming now readAts viewedAts isFirstRun m0).markReadAtUsed
      = if !readAts.isEmpty || !viewedAts.isEmpty then
          some (markReadAtOf now readAts viewedAts)
        else none := by
  unfold modifyTargetMessageIncoming
  cases isFirstRun <;>
    cases hp : (applyReadViewSyncs now readAts viewedAts m0).pendingMarkRead <;>
      simp [hp] <;> (try split) <;> simp

theorem modifyTargetMessageIncoming_firstRun_steps (now : Nat)
    (readAts viewedAts : List Nat) (m0 : IncomingTarget) :
    (modifyTargetMessageIncoming now readAts viewedAts true m0).steps = [] := by
  unfold modifyTargetMessageIncoming
  cases hp : (applyReadViewSyncs now readAts viewedAts m0).pendingMarkRead <;> simp [hp]

/-! ## Claim C3 -/

/-- Claim C3: when a reconciliation pass on an incoming message has at least one
buffered read or view sync, the presence of any view sync sets readStatus to Viewed,
read syncs alone set readStatus to Read (never Viewed), and seenStatus is set to Seen
in both cases. -/
theorem modifyTargetMessage_viewSupersedesRead (now : Nat)
    (readAts viewedAts : List Nat) (isFirstRun : Bool) (m : IncomingTarget)
    (h : readAts ≠ [] ∨ viewedAts ≠ []) :
    (viewedAts ≠ [] →
        (modifyTargetMessageIncoming now readAts viewedAts isFirstRun m).target.readStatus
          = ReadStatus.Viewed) ∧
      (viewedAts = [] →
        (modifyTargetMessageIncoming now readAts viewedAts isFirstRun m).target.readStatus
          = ReadStatus.Read) ∧
      (modifyTargetMessageIncoming now readAts viewedAts isFirstRun m).target.seenStatus
        = SeenStatus.Seen := by
  obtain ⟨hr, hsn, -⟩ :=
    modifyTargetMessageIncoming_target_fields now readAts viewedAts isFirstRun m
  refine ⟨?_, ?_, ?_⟩
  · intro hv
    rw [hr]
    have hv' : viewedAts.isEmpty = false := isEmpty_false_of_ne_nil hv
    simp [applyReadViewSyncs, hv']
  · intro hv
    subst hv
    rcases h with h | h
    · have hr' : readAts.isEmpty = false := isEmpty_false_of_ne_nil h
      rw [hr]
      simp [applyReadViewSyncs, hr']
    · exact absurd rfl h
  · rw [hsn]
    rcases h with h | h
    · have hr' : readAts.isEmpty = false := isEmpty_false_of_ne_nil h
      simp [applyReadViewSyncs, hr']
    · have hv' : viewedAts.isEmpty = false := isEmpty_false_of_ne_nil h
      simp [applyReadViewSyncs, hv']

/-- Witness for claim C3 at a concrete input: a view sync next to a read sync yields
readStatus Viewed and seenStatus Seen. -/
theorem modifyTargetMessage_viewSupersedesRead_witness :
    (([3] : List Nat) ≠ [] ∨ ([4] : List Nat) ≠ []) ∧
      (modifyTargetMessageIncoming 10 [3] [4] true
          { readStatus := ReadStatus.Unread, seenStatus := SeenStatus.Unseen,
            expireTimer := none, expirationStartTimestamp := none,
            pendingMarkRead := none }).target.readStatus = ReadStatus.Viewed := by
  refine ⟨by simp, ?_⟩
  exact (modifyTargetMessage_viewSupersedesRead 10 [3] [4] true
      { readStatus := ReadStatus.Unread, seenStatus := SeenStatus.Unseen,
        expireTimer := none, expirationStartTimestamp := none,
        pendingMarkRead := none } (by simp)).1 (by simp)

/-! ## Claim C4 -/

/-- Claim C4: with at least one matching sync, the computed markReadAt is exactly the
minimum of the current time and all matching syncs' readAt/viewedAt timestamps (hence
never later than now), and a message with an expiration timer gets
expirationStartTimestamp = min(existing-or-now, markReadAt). -/
theorem modifyTargetMessage_markReadAt_min (now : Nat) (readAts viewedAts : List Nat)
    (isFirstRun : Bool) (m : IncomingTarget)
    (h : readAts ≠ [] ∨ viewedAts ≠ []) :
    (modifyTargetMessageIncoming now readAts viewedAts isFirstRun m).markReadAtUsed
        = some (markReadAtOf now readAts viewedAts) ∧
      markReadAtOf now readAts viewedAts ≤ now ∧
      (∀ t ∈ readAts ++ viewedAts, markReadAtOf now readAts viewedAts ≤ t) ∧
      (markReadAtOf now readAts viewedAts = now ∨
        markReadAtOf now readAts viewedAts ∈ readAts ++ viewedAts) ∧
      (hasExpireTimer m = true →
        (modifyTargetMessageIncoming now readAts viewedAts
            isFirstRun m).target.expirationStartTimestamp
          = some (Nat.min (m.expirationStartTimestamp.getD now)
              (markReadAtOf now readAts viewedAts))) := by
  have hsyncs : (!readAts.isEmpty || !viewedAts.isEmpty) = true := by
    rcases h with h | h
    · simp [isEmpty_false_of_ne_nil h]
    · simp [isEmpty_false_of_ne_nil h]
  refine ⟨?_, ?_, ?_, ?_, ?_⟩
  · rw [modifyTargetMessageIncoming_markReadAtUsed, if_pos hsyncs]
  · exact foldl_min_le_init (readAts ++ viewedAts) now
  · intro t ht
    exact foldl_min_le_mem (readAts ++ viewedAts) now t ht
  · exact foldl_min_eq_init_or_mem (readAts ++ viewedAts) now
  · intro hexp
    obtain ⟨-, -, hes⟩ :=
      modifyTargetMessageIncoming_target_fields now readAts viewedAts isFirstRun m
    rw [hes]
    simp [applyReadViewSyncs, hsyncs, hexp]

/-- Witness for claim C4 at a concrete input: with now = 10 and syncs at 7 and 4, the
expiring message gets markReadAt 4 and expirationStartTimestamp min(10, 4) = 4. -/
theorem modifyTargetMessage_markReadAt_min_witness :
    (([7] : List Nat) ≠ [] ∨ ([4] : List Nat) ≠ []) ∧
      (modifyTargetMessageIncoming 10 [7] [4] false
          { readStatus := ReadStatus.Unread, seenStatus := SeenStatus.Unseen,
            expireTimer := some 30, expirationStartTimestamp := none,
            pendingMarkRead := none }).markReadAtUsed = some (markReadAtOf 10 [7] [4]) := by
  refine ⟨by simp, ?_⟩
  exact (modifyTargetMessage_markReadAt_min 10 [7] [4] false
      { readStatus := ReadStatus.Unread, seenStatus := SeenStatus.Unseen,
        expireTimer := some 30, expirationStartTimestamp := none,
        pendingMarkRead := none } (by simp)).1

/-! ## Claim C5 -/

/-- Claim C5: the mark-older-messages-read cascade (`onReadMessage`) is never emitted
by a first-run reconciliation pass, and in the full `handleDataMessage` pipeline every
emitted cascade step comes strictly after the persistence batch step that
`saveAndNotify` awaits. -/
theorem readCascade_only_after_persistence (now : Nat) (readAts viewedAts : List Nat)
    (m : IncomingTarget) :
    (modifyTargetMessageIncoming now readAts viewedAts true m).steps = [] ∧
      (∀ i t, (handleDataMessageReconciliationSteps now readAts viewedAts m).get? i
          = some (LifecycleStep.onReadMessage t) →
        ∃ j, j < i ∧
          (handleDataMessageReconciliationSteps now readAts viewedAts m).get? j
            = some LifecycleStep.batchSave) := by
  have hfirst := modifyTargetMessageIncoming_firstRun_steps now readAts viewedAts m
  refine ⟨hfirst, ?_⟩
  intro i t hit
  have htrace : handleDataMessageReconciliationSteps now readAts viewedAts m
      = LifecycleStep.batchSave :: LifecycleStep.triggerNewMessage ::
          ((modifyTargetMessageIncoming now readAts viewedAts false
              (modifyTargetMessageIncoming now readAts viewedAts true m).target).steps
            ++ [LifecycleStep.confirmReceipt]) := by
    simp only [handleDataMessageReconciliationSteps, saveAndNotifySteps, hfirst,
      List.nil_append]
  rw [htrace] at hit
  cases i with
  | zero => simp at hit
  | succ k =>
      refine ⟨0, Nat.succ_pos k, ?_⟩
      rw [htrace]
      rfl

/-- Witness for claim C5 at a concrete input: with a read sync at 5 and now = 10 the
pipeline emits the cascade at position 2, strictly after the persistence batch at
position 0. -/
theorem readCascade_only_after_persistence_witness :
    ((handleDataMessageReconciliationSteps 10 [5] []
        { readStatus := ReadStatus.Unread, seenStatus := SeenStatus.Unseen,
          expireTimer := none, expirationStartTimestamp := none,
          pendingMarkRead := none }).get? 2
      = some (LifecycleStep.onReadMessage 5)) ∧
      (∃ j, j < 2 ∧
        (handleDataMessageReconciliationSteps 10 [5] []
            { readStatus := ReadStatus.Unread, seenStatus := SeenStatus.Unseen,
              expireTimer := none, expirationStartTimestamp := none,
              pendingMarkRead := none }).get? j = some LifecycleStep.batchSave) := by
  refine ⟨by decide, ?_⟩
  exact (readCascade_only_after_persistence 10 [5] []
      { readStatus := ReadStatus.Unread, seenStatus := SeenStatus.Unseen,
        expireTimer := none, expirationStartTimestamp := none,
        pendingMarkRead := none }).2 2 5 (by decide)

/-! ## Claim C7 -/

/-- Claim C7: a message with no body, attachments, contact or sticker that carries the
expiration-timer-update flag is not classified empty and is not dropped by the
emptiness gate; a message with none of the displayable content kinds and none of the
recognized subtypes is classified empty and dropped by the gate. -/
theorem isEmpty_timerUpdate_exempt (m : MsgAttrs) :
    (m.body = "" → m.attachments = [] → m.contact = [] → m.sticker = none →
        isExpirationTimerUpdate m = true →
        isEmpty m = false ∧ postPopulationDrop m = false) ∧
      (m.body = "" → m.attachments = [] → m.contact = [] → m.sticker = none →
        messageHasPaymentEvent m = false → isCallHistory m = false →
        isChatSessionRefreshed m = false → isDeliveryIssue m = false →
        isGiftBadge m = false → isGroupUpdate m = false → isGroupV2Change m = false →
        isEndSession m = false → isExpirationTimerUpdate m = false →
        isVerifiedChange m = false → isUnsupportedMessage m = false →
        isTapToView m = false → hasErrors m = false → isKeyChange m = false →
        isProfileChange m = false → isUniversalTimerNotification m = false →
        isConversationMerge m = false →
        isEmpty m = true ∧ postPopulationDrop m = true) := by
  refine ⟨?_, ?_⟩
  · intro hbody hatt hcon hstk hflag
    have hempty : isEmpty m = false := by
      simp [isEmpty, hflag]
    exact ⟨hempty, by simp [postPopulationDrop, hempty]⟩
  · intro h1 h2 h3 h4 h5 h6 h7 h8 h9 h10 h11 h12 h13 h14 h15 h16 h17 h18 h19 h20 h21
    have hempty : isEmpty m = true := by
      simp [isEmpty, h1, h2, h3, h4, h5, h6, h7, h8, h9, h10, h11, h12, h13, h14,
        h15, h16, h17, h18, h19, h20, h21]
    exact ⟨hempty, by simp [postPopulationDrop, hempty, h15]⟩

/-- Witness for claim C7 at a concrete input: an otherwise-empty message whose flags
carry only the expiration-timer-update bit survives the emptiness gate. -/
theorem isEmpty_timerUpdate_exempt_witness :
    isExpirationTimerUpdate
        { msgType := "incoming", body := "", bodyRanges := none, attachments := [],
          contact := [], sticker := none, payment := none, giftBadge := none,
          group_update := none, groupV2Change := none, flags := 2, isViewOnce := false,
          errors := [], editHistory := none, supportedVersionAtReceive := none,
          requiredProtocolVersion := none, isErased := false, preview := [],
          quote := none, reactions := [], deletedForEveryone := false } = true ∧
      isEmpty
        { msgType := "incoming", body := "", bodyRanges := none, attachments := [],
          contact := [], sticker := none, payment := none, giftBadge := none,
          group_update := none, groupV2Change := none, flags := 2, isViewOnce := false,
          errors := [], editHistory := none, supportedVersionAtReceive := none,
          requiredProtocolVersion := none, isErased := false, preview := [],
          quote := none, reactions := [], deletedForEveryone := false } = false := by
  refine ⟨by decide, ?_⟩
  exact ((isEmpty_timerUpdate_exempt
      { msgType := "incoming", body := "", bodyRanges := none, attachments := [],
        contact := [], sticker := none, payment := none, giftBadge := none,
        group_update := none, groupV2Change := none, flags := 2, isViewOnce := false,
        errors := [], editHistory := none, supportedVersionAtReceive := none,
        requiredProtocolVersion := none, isErased := false, preview := [],
        quote := none, reactions := [], deletedForEveryone := false }).1
    rfl rfl rfl rfl (by decide)).1

/-! ## Claim C9 -/

/-- Claim C9: `handleDeleteForEveryone` establishes the invariant deletedForEveryone ⇒
erased-and-reactions-cleared on any not-yet-deleted message, an already-deleted
message is returned unchanged, and the operation is idempotent. -/
theorem handleDeleteForEveryone_invariant (m : MsgAttrs) :
    (m.deletedForEveryone = false → deletedInvariant (handleDeleteForEveryone m)) ∧
      (m.deletedForEveryone = true → handleDeleteForEveryone m = m) ∧
      handleDeleteForEveryone (handleDeleteForEveryone m) = handleDeleteForEveryone m := by
  refine ⟨?_, ?_, ?_⟩
  · intro h
    simp [handleDeleteForEveryone, h, eraseContentsForDelete, deletedInvariant]
  · intro h
    simp [handleDeleteForEveryone, h]
  · cases h : m.deletedForEveryone
    · simp [handleDeleteForEveryone, h, eraseContentsForDelete]
    · simp [handleDeleteForEveryone, h]

/-- Witness for claim C9 at a concrete input: deleting a populated message for
everyone erases it and clears its reactions. -/
theorem handleDeleteForEveryone_invariant_witness :
    ({ msgType := "incoming", body := "hello", bodyRanges := none, attachments := ["a"],
        contact := [], sticker := none, payment := none, giftBadge := none,
        group_update := none, groupV2Change := none, flags := 0, isViewOnce := false,
        errors := [], editHistory := none, supportedVersionAtReceive := none,
        requiredProtocolVersion := none, isErased := false, preview := [],
        quote := none,
        reactions := [{ emoji := some "x", fromId := "alice", timestamp := 1 }],
        deletedForEveryone := false } : MsgAttrs).deletedForEveryone = false ∧
      deletedInvariant (handleDeleteForEveryone
        { msgType := "incoming", body := "hello", bodyRanges := none,
          attachments := ["a"], contact := [], sticker := none, payment := none,
          giftBadge := none, group_update := none, groupV2Change := none, flags := 0,
          isViewOnce := false, errors := [], editHistory := none,
          supportedVersionAtReceive := none, requiredProtocolVersion := none,
          isErased := false, preview := [], quote := none,
          reactions := [{ emoji := some "x", fromId := "alice", timestamp := 1 }],
          deletedForEveryone := false }) := by
  refine ⟨rfl, ?_⟩
  exact (handleDeleteForEveryone_invariant
      { msgType := "incoming", body := "hello", bodyRanges := none,
        attachments := ["a"], contact := [], sticker := none, payment := none,
        giftBadge := none, group_update := none, groupV2Change := none, flags := 0,
        isViewOnce := false, errors := [], editHistory := none,
        supportedVersionAtReceive := none, requiredProtocolVersion := none,
        isErased := false, preview := [], quote := none,
        reactions := [{ emoji := some "x", fromId := "alice", timestamp := 1 }],
        deletedForEveryone := false }).1 rfl

/-! ## Claim C1 -/

/-- Claim C1: when a message with the same sender identity is already known, an
incoming-type arrival is dropped as a duplicate (confirmed, nothing new stored), an
outgoing-type sync update merges the transcript's delivery metadata into the existing
message via `mergeRecipientUpdate` and stores no new message, and no incoming or
outgoing arrival over a known sender identity ever stores a second message. -/
theorem handleDataMessage_dedup (g : GateInput) (e : ExistingMessage)
    (he : g.existingMessage = some e) :
    (g.msgType = MsgType.incoming →
        gateDecision g = GateOutcome.droppedDuplicate ∧
          callsConfirm (gateDecision g) = true ∧
          storesNewMessage (gateDecision g) = false) ∧
      (g.msgType = MsgType.outgoing → g.hasSyncData = true → g.isRecipientUpdate = true →
        gateDecision g = GateOutcome.mergedSyncUpdate
          (mergeRecipientUpdate e g.unidentifiedStatus g.updatedAt)) ∧
      (g.msgType ≠ MsgType.story → storesNewMessage (gateDecision g) = false) := by
  refine ⟨?_, ?_, ?_⟩
  · intro ht
    have hd : gateDecision g = GateOutcome.droppedDuplicate := by
      simp [gateDecision, he, ht]
    exact ⟨hd, by rw [hd]; rfl, by rw [hd]; rfl⟩
  · intro ht hs hu
    simp [gateDecision, he, ht, hs, hu]
  · intro ht
    cases hmt : g.msgType with
    | incoming =>
        have hd : gateDecision g = GateOutcome.droppedDuplicate := by
          simp [gateDecision, he, hmt]
        rw [hd]
        rfl
    | story => exact absurd hmt ht
    | outgoing =>
        cases hsd : g.hasSyncData <;> cases hru : g.isRecipientUpdate <;>
          simp [gateDecision, he, hmt, hsd, hru, storesNewMessage]

/-- Witness for claim C1 at a concrete input: an incoming arrival over an
already-known sender identity is dropped as a duplicate. -/
theorem handleDataMessage_dedup_witness :
    ({ msgType := MsgType.incoming,
        existingMessage := some { storyDistributionListId := none,
                                  sendStateByConversationId := [],
                                  unidentifiedDeliveries := [] },
        hasSyncData := false, isRecipientUpdate := false,
        thisStoryDistributionListId := none, unidentifiedStatus := [], updatedAt := 0,
        sourceBlocked := false, sourceUuidBlocked := false, hasGroupV2Prop := false,
        isDirectConversation := true, conversationLeft := false, weAreMember := true,
        sourceUuidPresent := true, senderIsMember := true, membersFieldPresent := false,
        announcementsOnly := false, senderIsAdmin := false } : GateInput).existingMessage
        = some { storyDistributionListId := none, sendStateByConversationId := [],
                 unidentifiedDeliveries := [] } ∧
      gateDecision
        { msgType := MsgType.incoming,
          existingMessage := some { storyDistributionListId := none,
                                    sendStateByConversationId := [],
                                    unidentifiedDeliveries := [] },
          hasSyncData := false, isRecipientUpdate := false,
          thisStoryDistributionListId := none, unidentifiedStatus := [], updatedAt := 0,
          sourceBlocked := false, sourceUuidBlocked := false, hasGroupV2Prop := false,
          isDirectConversation := true, conversationLeft := false, weAreMember := true,
          sourceUuidPresent := true, senderIsMember := true,
          membersFieldPresent := false, announcementsOnly := false,
          senderIsAdmin := false } = GateOutcome.droppedDuplicate := by
  refine ⟨rfl, ?_⟩
  exact ((handleDataMessage_dedup
      { msgType := MsgType.incoming,
        existingMessage := some { storyDistributionListId := none,
                                  sendStateByConversationId := [],
                                  unidentifiedDeliveries := [] },
        hasSyncData := false, isRecipientUpdate := false,
        thisStoryDistributionListId := none, unidentifiedStatus := [], updatedAt := 0,
        sourceBlocked := false, sourceUuidBlocked := false, hasGroupV2Prop := false,
        isDirectConversation := true, conversationLeft := false, weAreMember := true,
        sourceUuidPresent := true, senderIsMember := true, membersFieldPresent := false,
        announcementsOnly := false, senderIsAdmin := false }
      { storyDistributionListId := none, sendStateByConversationId := [],
        unidentifiedDeliveries := [] } rfl).1 rfl).1

/-! ## Claim C10 -/

/-- Claim C10: an incoming payload whose sender e164 or uuid is blocked never stores a
message and is always confirmed; when no duplicate intervenes the outcome is exactly
the blocked drop, which the gate reaches before the group-membership,
announcement-only and story stages regardless of their inputs. -/
theorem handleDataMessage_blockedDrop (g : GateInput)
    (hin : g.msgType = MsgType.incoming)
    (hb : g.sourceBlocked = true ∨ g.sourceUuidBlocked = true) :
    storesNewMessage (gateDecision g) = false ∧
      callsConfirm (gateDecision g) = true ∧
      (g.existingMessage = none → gateDecision g = GateOutcome.droppedBlocked) := by
  have hbl : (g.sourceBlocked || g.sourceUuidBlocked) = true := by
    rcases hb with h | h <;> simp [h]
  cases hex : g.existingMessage with
  | some e =>
      have hd : gateDecision g = GateOutcome.droppedDuplicate := by
        simp [gateDecision, hex, hin]
      rw [hd]
      refine ⟨rfl, rfl, ?_⟩
      intro h
      exact Option.noConfusion h
  | none =>
      have hd : gateDecision g = GateOutcome.droppedBlocked := by
        simp [gateDecision, hex, hin, hbl]
      rw [hd]
      exact ⟨rfl, rfl, fun _ => rfl⟩

/-- Witness for claim C10 at a concrete input: an incoming payload from a blocked uuid
is dropped by the blocked gate even though every membership field would let it pass. -/
theorem handleDataMessage_blockedDrop_witness :
    (({ msgType := MsgType.incoming, existingMessage := none, hasSyncData := false,
        isRecipientUpdate := false, thisStoryDistributionListId := none,
        unidentifiedStatus := [], updatedAt := 0, sourceBlocked := false,
        sourceUuidBlocked := true, hasGroupV2Prop := true,
        isDirectConversation := false, conversationLeft := false, weAreMember := true,
        sourceUuidPresent := true, senderIsMember := true, membersFieldPresent := true,
        announcementsOnly := false, senderIsAdmin := true } : GateInput).sourceUuidBlocked
        = true) ∧
      gateDecision
        { msgType := MsgType.incoming, existingMessage := none, hasSyncData := false,
          isRecipientUpdate := false, thisStoryDistributionListId := none,
          unidentifiedStatus := [], updatedAt := 0, sourceBlocked := false,
          sourceUuidBlocked := true, hasGroupV2Prop := true,
          isDirectConversation := false, conversationLeft := false, weAreMember := true,
          sourceUuidPresent := true, senderIsMember := true, membersFieldPresent := true,
          announcementsOnly := false, senderIsAdmin := true }
        = GateOutcome.droppedBlocked := by
  refine ⟨rfl, ?_⟩
  exact (handleDataMessage_blockedDrop
      { msgType := MsgType.incoming, existingMessage := none, hasSyncData := false,
        isRecipientUpdate := false, thisStoryDistributionListId := none,
        unidentifiedStatus := [], updatedAt := 0, sourceBlocked := false,
        sourceUuidBlocked := true, hasGroupV2Prop := true,
        isDirectConversation := false, conversationLeft := false, weAreMember := true,
        sourceUuidPresent := true, senderIsMember := true, membersFieldPresent := true,
        announcementsOnly := false, senderIsAdmin := true }
      rfl (Or.inr rfl)).2.2 rfl

end SignalDesktop

